import Mathlib

/-!
Verification of the connection supervisor in
`src/vpn-service/nm-pulse-sso-service.py` (the `PulseSSOPlugin` class).

The plugin is a single-threaded GLib/D-Bus state machine.  We embed it
shallowly: the instance attributes become fields of `PluginState`; every
D-Bus method and GLib callback becomes a pure function
`PluginState → PluginState × List Output`.  GLib one-shot timeout sources
(`GLib.timeout_add` / `GLib.source_remove`) are modelled as a list of
pending `TimerEntry` values carrying the source id, the callback the
source would invoke, and the requested delay in milliseconds; fresh
source ids come from a counter.  Subprocess launches (`Popen` of
openconnect) are modelled by recording a `startTunnel` output and
allocating a fresh pid from a counter.  Emitted D-Bus signals
(`StateChanged`, `Failure`, `Ip4Config`, ...) and raised D-Bus errors
(`LaunchFailedError`) are recorded in the output list in program order.

External effects that do not feed back into the supervisor's control
state (logging, the vpnc helper environment, `_clear_cached_secrets`'s
D-Bus call, the DTLS configuration flag that only changes the
openconnect command line) are not modelled.  The result of the external
auth-dialog run inside `_launch_direct_auth` is an input to the model
(`AuthOutcome`), covering each branch of that method's body.
-/

namespace PulseSSO

/-- NetworkManager VPN service states (class `ServiceState` in the source). -/
inductive ServiceState where
  | Unknown
  | Init
  | Shutdown
  | Starting
  | Started
  | Stopping
  | Stopped
deriving Repr, DecidableEq

/-- The three GLib timeout callbacks the plugin schedules:
`_do_restart` (via `_restart_timeout_id`), `_launch_direct_auth`
(via `_direct_auth_timeout_id`) and `_on_secrets_timeout`
(via `_secrets_timeout_id`). -/
inductive TimerKind where
  | restart
  | directAuth
  | secretsWait
deriving Repr, DecidableEq

/-- A pending GLib timeout source: its source id, which callback it will
invoke, and the delay in milliseconds it was created with. -/
structure TimerEntry where
  id : Nat
  kind : TimerKind
  delay : Nat
deriving Repr, DecidableEq

/-- The parts of an inbound connection dictionary the supervisor reads:
`connection['vpn']['data']['gateway']`, `connection['vpn']['secrets']['cookie']`
and `connection['vpn']['secrets']['gwcert']`.  The Python code reads each
with `.get(key, '')`, so a missing key and an empty string behave
identically; we model both as `""`. -/
structure Conn where
  gateway : String
  cookie : String
  gwcert : String
deriving Repr, DecidableEq

/-- Observable actions of a handler, in program order. -/
inductive Output where
  | stateChanged (s : ServiceState)
  | failure (reason : String)
  | ip4Config
  | config
  | startTunnel (gateway cookie : String)
  | raiseLaunchFailed (msg : String)
  | quitLoop
deriving Repr, DecidableEq

/-- The mutable instance attributes of `PulseSSOPlugin` (set up in
`__init__`), plus the modelled GLib timer table and the fresh-id/pid
counters.  `_max_reconnection_retries`, `_reconnection_retry_interval`
and `_secrets_timeout_ms` are assigned once in `__init__` and never
reassigned, so they appear below as constants rather than fields. -/
structure PluginState where
  proc : Option Nat
  gateway : Option String
  cookie : Option String
  servercert : Option String
  pending_connection : Option Conn
  disconnect_requested : Bool
  restart_timeout_id : Option Nat
  auth_failure_count : Nat
  reconnection_pending : Bool
  reconnection_retry_count : Nat
  last_failed_cookie : Option String
  direct_auth_timeout_id : Option Nat
  secrets_timeout_id : Option Nat
  timers : List TimerEntry
  nextId : Nat
  nextPid : Nat
deriving Repr, DecidableEq

/-- `self._max_reconnection_retries = 10` in `__init__`. -/
def max_reconnection_retries : Nat := 10

/-- `self._reconnection_retry_interval = 3000` milliseconds in `__init__`. -/
def reconnection_retry_interval : Nat := 3000

/-- `self._secrets_timeout_ms = 5000` milliseconds in `__init__`. -/
def secrets_timeout_ms : Nat := 5000

/-- The plugin state right after `__init__`. -/
def initState : PluginState where
  proc := none
  gateway := none
  cookie := none
  servercert := none
  pending_connection := none
  disconnect_requested := false
  restart_timeout_id := none
  auth_failure_count := 0
  reconnection_pending := false
  reconnection_retry_count := 0
  last_failed_cookie := none
  direct_auth_timeout_id := none
  secrets_timeout_id := none
  timers := []
  nextId := 0
  nextPid := 0

/-- Python truthiness of an optional string attribute: `None` and `''`
are falsy, any other string is truthy. -/
def optTruthy : Option String → Bool
  | none => false
  | some s => !(s == "")

/-- `GLib.timeout_add(delay, cb)`: registers a new one-shot source and
returns its (fresh) source id. -/
def timeoutAdd (delay : Nat) (k : TimerKind) (s : PluginState) : Nat × PluginState :=
  (s.nextId,
   { s with timers := s.timers ++ [⟨s.nextId, k, delay⟩], nextId := s.nextId + 1 })

/-- `GLib.source_remove(id)`: removes the pending source with that id. -/
def sourceRemove (i : Nat) (s : PluginState) : PluginState :=
  { s with timers := s.timers.filter (fun t => !(t.id == i)) }

/-- The guarded removal pattern `if self._X_timeout_id is not None:
GLib.source_remove(self._X_timeout_id)` used by every cancel/reschedule
site in the source. -/
def removeOpt (o : Option Nat) (s : PluginState) : PluginState :=
  match o with
  | some i => sourceRemove i s
  | none => s

/-- Number of pending GLib sources that would invoke the given callback. -/
def pendingCount (k : TimerKind) (s : PluginState) : Nat :=
  s.timers.countP (fun t => t.kind == k)

/-- `_schedule_direct_auth(delay_ms)`: removes any source stored in
`_direct_auth_timeout_id`, then registers `_launch_direct_auth` with the
given delay and stores the new source id.  (The `delay_ms < 0` clamp in
the source is vacuous here since delays are naturals.) -/
def schedule_direct_auth (delay_ms : Nat) (s : PluginState) : PluginState :=
  let s1 := removeOpt s.direct_auth_timeout_id s
  let (i, s2) := timeoutAdd delay_ms TimerKind.directAuth s1
  { s2 with direct_auth_timeout_id := some i }

/-- `_cancel_direct_auth_timer`.  (When the stored id is `None` the
source does nothing; writing `None` back then is the identity.) -/
def cancel_direct_auth_timer (s : PluginState) : PluginState :=
  { removeOpt s.direct_auth_timeout_id s with direct_auth_timeout_id := none }

/-- `_cancel_secrets_timeout`.  (Same `None`-write remark as above.) -/
def cancel_secrets_timeout (s : PluginState) : PluginState :=
  { removeOpt s.secrets_timeout_id s with secrets_timeout_id := none }

/-- The assignment `self.pending_connection = None` done by `NewSecrets`
after completing a pending request. -/
def clearPending (s : PluginState) : PluginState :=
  { s with pending_connection := none }

/-- `_schedule_secrets_timeout`: cancels any pending secrets timeout,
then registers `_on_secrets_timeout` after `_secrets_timeout_ms`. -/
def schedule_secrets_timeout (s : PluginState) : PluginState :=
  let s1 := cancel_secrets_timeout s
  let (i, s2) := timeoutAdd secrets_timeout_ms TimerKind.secretsWait s1
  { s2 with secrets_timeout_id := some i }

/-- Whether the character list `l` begins with the pattern `p`
(a kernel-reducible version of `str.startswith`). -/
def listStarts : List Char → List Char → Bool
  | _, [] => true
  | [], _ :: _ => false
  | a :: as, b :: bs => a == b && listStarts as bs

/-- `s.startswith(pre)` on strings. -/
def strStarts (s pre : String) : Bool :=
  listStarts s.data pre.data

/-- Gateway normalization done in `_do_connect`, `Connect`,
`ConnectInteractive`, `_on_secrets_timeout` and `NewSecrets`:
prepend `https://` unless the URL already carries a scheme. -/
def normalizeGateway (g : String) : String :=
  if strStarts g "http://" || strStarts g "https://" then g
  else "https://" ++ g

/-- `_start_openconnect`: spawns the openconnect subprocess with the
current `self.gateway` / `self.cookie` and records its pid.  The DTLS
config flag only alters the command line, not the control flow, and the
spawn itself is assumed to succeed (a `Popen` failure is an environment
error outside the model). -/
def start_openconnect (s : PluginState) : PluginState × List Output :=
  ({ s with proc := some s.nextPid, nextPid := s.nextPid + 1 },
   [Output.startTunnel (s.gateway.getD "") (s.cookie.getD "")])

/-- `_ensure_direct_auth(reason)`: sets `_reconnection_pending`, emits
`StateChanged(Starting)` and schedules the direct-auth timer (callers in
the modelled code always pass `delay_ms=0`). -/
def ensure_direct_auth (s : PluginState) : PluginState × List Output :=
  let s1 := { s with reconnection_pending := true }
  (schedule_direct_auth 0 s1, [Output.stateChanged ServiceState.Starting])

/-- `_do_connect(connection)`: validate gateway/cookie, normalize the
gateway scheme, refuse a cookie equal to `_last_failed_cookie`
(deferring to direct auth), otherwise store the credentials, clear the
disconnect/reconnection flags and start openconnect. -/
def do_connect (conn : Conn) (s : PluginState) : PluginState × List Output :=
  let gateway := conn.gateway
  let cookie := conn.cookie
  let servercert := conn.gwcert
  if gateway == "" then
    (s, [Output.raiseLaunchFailed "No gateway specified in VPN configuration"])
  else if cookie == "" then
    (s, [Output.raiseLaunchFailed "No cookie provided - auth-dialog may have failed"])
  else
    let gateway := normalizeGateway gateway
    if optTruthy s.last_failed_cookie && (some cookie == s.last_failed_cookie) then
      ensure_direct_auth s
    else
      let s1 := { s with last_failed_cookie :=
        (if optTruthy s.last_failed_cookie && !(some cookie == s.last_failed_cookie)
          then none else s.last_failed_cookie) }
      let s2 := { s1 with
        gateway := some gateway
        cookie := some cookie
        servercert := some servercert
        disconnect_requested := false
        reconnection_pending := false
        reconnection_retry_count := 0 }
      let (s3, out) := start_openconnect s2
      (s3, Output.stateChanged ServiceState.Starting :: out)

/-- `_on_openconnect_exit(pid, status)`: ignore exits of superseded
processes; honor `_disconnect_requested`; on exit code 2 record the
rejected cookie, clear the cookie, bump `_auth_failure_count` and either
give up (count > 3), schedule direct re-auth (gateway known) or fail;
on any other exit code restart after 2000 ms when cookie and gateway are
still known, else stop.  The platform wait-status decoding is modelled
by taking the decoded exit code (negative for signal terminations)
directly as input. -/
def on_openconnect_exit (pid : Nat) (exit_code : Int) (s : PluginState) :
    PluginState × List Output :=
  if !(s.proc == some pid) then (s, [])
  else
    let s := { s with proc := none }
    if s.disconnect_requested then (s, [])
    else if exit_code == 2 then
      let failed_cookie := s.cookie
      let s := { s with
        cookie := none
        last_failed_cookie :=
          (if optTruthy failed_cookie then failed_cookie else s.last_failed_cookie) }
      let s := { s with auth_failure_count := s.auth_failure_count + 1 }
      if s.auth_failure_count > 3 then
        (s, [Output.stateChanged ServiceState.Stopped,
             Output.failure ("Authentication failed " ++ "repeatedly" ++
               " - please reconnect manually")])
      else if optTruthy s.gateway && !s.disconnect_requested then
        let s := { s with reconnection_pending := true }
        (schedule_direct_auth 1000 s, [Output.stateChanged ServiceState.Starting])
      else
        (s, [Output.stateChanged ServiceState.Stopped,
             Output.failure "Authentication failed - cookie expired"])
    else
      if optTruthy s.cookie && optTruthy s.gateway then
        let (i, s1) := timeoutAdd 2000 TimerKind.restart s
        ({ s1 with restart_timeout_id := some i },
         [Output.stateChanged ServiceState.Starting])
      else
        (s, [Output.stateChanged ServiceState.Stopped])

/-- `_do_restart`: clear the stored restart source id, abort silently if
disconnect was requested, stop if the credentials were cleared, else
restart openconnect with the stored gateway and cookie. -/
def do_restart (s : PluginState) : PluginState × List Output :=
  let s := { s with restart_timeout_id := none }
  if s.disconnect_requested then (s, [])
  else if !(optTruthy s.cookie) || !(optTruthy s.gateway) then
    (s, [Output.stateChanged ServiceState.Stopped])
  else
    start_openconnect s

/-- `_schedule_auth_retry(reason)`: give up (Stopped + Failure) once
`_reconnection_retry_count` has reached `_max_reconnection_retries`,
otherwise reschedule the direct-auth timer after the retry interval. -/
def schedule_auth_retry (reason : String) (s : PluginState) : PluginState × List Output :=
  if s.reconnection_retry_count ≥ max_reconnection_retries then
    ({ s with reconnection_pending := false },
     [Output.stateChanged ServiceState.Stopped,
      Output.failure ("VPN reconnection failed after " ++
        toString max_reconnection_retries ++ " attempts: " ++ reason)])
  else
    (schedule_direct_auth reconnection_retry_interval s, [])

/-- Result of the external auth-dialog run attempted by
`_launch_direct_auth`, one constructor per branch of the method body:
no graphical session found, dialog exited non-zero, dialog output held
no cookie, the dialog timed out (`subprocess.TimeoutExpired`; a generic
exception takes the same `_schedule_auth_retry` path with a different
reason string), or success with a cookie and server-cert value. -/
inductive AuthOutcome where
  | success (cookie gwcert : String)
  | noSession
  | dialogFailed
  | noCookie
  | timedOut
deriving Repr, DecidableEq

/-- `_launch_direct_auth`: clear the stored direct-auth source id, skip
when reconnection is no longer pending, bump the retry counter and give
up past the bound, otherwise act on the auth-dialog outcome; on success
store the fresh credentials, clear `_last_failed_cookie`, emit
`StateChanged(Starting)`, start openconnect and reset the retry state. -/
def launch_direct_auth (o : AuthOutcome) (s : PluginState) : PluginState × List Output :=
  let s := { s with direct_auth_timeout_id := none }
  if !s.reconnection_pending then (s, [])
  else
    let s := { s with reconnection_retry_count := s.reconnection_retry_count + 1 }
    if s.reconnection_retry_count > max_reconnection_retries then
      ({ s with reconnection_pending := false },
       [Output.stateChanged ServiceState.Stopped,
        Output.failure "VPN reconnection failed - please reconnect manually"])
    else
      match o with
      | AuthOutcome.noSession => (schedule_direct_auth reconnection_retry_interval s, [])
      | AuthOutcome.dialogFailed => (schedule_direct_auth reconnection_retry_interval s, [])
      | AuthOutcome.noCookie => schedule_auth_retry "No cookie in auth-dialog output" s
      | AuthOutcome.timedOut => schedule_auth_retry "Auth-dialog timed out" s
      | AuthOutcome.success cookie gwcert =>
        let s := { s with
          cookie := some cookie
          servercert := some gwcert
          last_failed_cookie := none }
        let (s1, out) := start_openconnect s
        let s2 := { s1 with
          reconnection_pending := false
          reconnection_retry_count := 0
          auth_failure_count := 0 }
        (cancel_direct_auth_timer s2, Output.stateChanged ServiceState.Starting :: out)

/-- `_on_secrets_timeout`: clear the stored secrets source id; ignore
the firing when no connection is pending or openconnect already runs;
fail when the pending connection has no gateway; otherwise store the
normalized gateway, enter the reconnection-pending sub-state and
schedule direct auth immediately. -/
def on_secrets_timeout (s : PluginState) : PluginState × List Output :=
  let s := { s with secrets_timeout_id := none }
  match s.pending_connection with
  | none => (s, [])
  | some pc =>
    if !(s.proc == none) then (s, [])
    else if pc.gateway == "" then
      ({ s with pending_connection := none },
       [Output.stateChanged ServiceState.Stopped,
        Output.failure "No VPN gateway configured"])
    else
      let g := normalizeGateway pc.gateway
      let s := { s with
        gateway := some g
        reconnection_pending := true
        reconnection_retry_count := 0 }
      (schedule_direct_auth 0 s, [])

/-- The `Connect` D-Bus method: without a cookie, validate and normalize
the gateway, stash the request in `pending_connection`, enter the
reconnection-pending sub-state, emit `StateChanged(Starting)` and
schedule direct auth immediately; with a cookie, `_do_connect`. -/
def Connect (conn : Conn) (s : PluginState) : PluginState × List Output :=
  if conn.cookie == "" then
    if conn.gateway == "" then
      (s, [Output.raiseLaunchFailed "No gateway specified in VPN configuration"])
    else
      let g := normalizeGateway conn.gateway
      let s1 := { s with
        pending_connection := some conn
        gateway := some g
        reconnection_pending := true
        reconnection_retry_count := 0 }
      (schedule_direct_auth 0 s1, [Output.stateChanged ServiceState.Starting])
  else
    do_connect conn s

/-- The `ConnectInteractive` D-Bus method: always stores the request in
`pending_connection`; a cookie equal to `_last_failed_cookie` is treated
as absent; without a (usable) cookie, validate and normalize the
gateway, enter the reconnection-pending sub-state and schedule direct
auth; with a usable cookie, `_do_connect`. -/
def ConnectInteractive (conn : Conn) (s : PluginState) : PluginState × List Output :=
  let s := { s with pending_connection := some conn }
  let cookie :=
    if !(conn.cookie == "") && optTruthy s.last_failed_cookie &&
        (some conn.cookie == s.last_failed_cookie)
      then "" else conn.cookie
  if cookie == "" then
    if conn.gateway == "" then
      (s, [Output.raiseLaunchFailed "No gateway specified in VPN configuration"])
    else
      let g := normalizeGateway conn.gateway
      let s1 := { s with
        gateway := some g
        reconnection_pending := true
        reconnection_retry_count := 0 }
      (schedule_direct_auth 0 s1, [Output.stateChanged ServiceState.Starting])
  else
    do_connect conn s

/-- Whether a handler's recorded outputs include a raised
`LaunchFailedError` (the exception aborts the rest of the caller). -/
def raised (out : List Output) : Bool :=
  out.any (fun o => match o with
    | Output.raiseLaunchFailed _ => true
    | _ => false)

/-- The `NewSecrets` D-Bus method: cancel the secrets timeout; without a
cookie, fall back to direct auth using the gateway from the argument or
from `pending_connection` (failing if neither has one); with a cookie,
merge the secrets into `pending_connection` and complete it via
`_do_connect` (clearing `pending_connection` afterwards unless
`_do_connect` raised), or — re-auth flow — build a connection from the
stored gateway, or ignore the call when neither exists.  A `dict.update`
with an absent key keeps the old value, which under the ""-for-absent
encoding is the `== ""` test below. -/
def NewSecrets (conn : Conn) (s : PluginState) : PluginState × List Output :=
  let s := cancel_secrets_timeout s
  if conn.cookie == "" then
    let gw := if !(conn.gateway == "") then conn.gateway
      else match s.pending_connection with
        | some pc => pc.gateway
        | none => ""
    if gw == "" then
      (s, [Output.stateChanged ServiceState.Stopped,
           Output.failure "No VPN gateway configured"])
    else
      let g := normalizeGateway gw
      let s1 := { s with
        gateway := some g
        reconnection_pending := true
        reconnection_retry_count := 0 }
      (schedule_direct_auth 0 s1, [])
  else
    match s.pending_connection with
    | some pc =>
      let merged : Conn :=
        { pc with
          cookie := if conn.cookie == "" then pc.cookie else conn.cookie
          gwcert := if conn.gwcert == "" then pc.gwcert else conn.gwcert }
      let s1 := { s with pending_connection := some merged }
      let (s2, out) := do_connect merged s1
      if raised out then (s2, out)
      else (clearPending s2, out)
    | none =>
      match s.gateway with
      | some g =>
        if !(g == "") then
          do_connect { gateway := g, cookie := conn.cookie, gwcert := conn.gwcert } s
        else (s, [])
      | none => (s, [])

/-- The `Disconnect` D-Bus method: while `_reconnection_pending` it only
sets `_disconnect_requested` and emits `StateChanged(Stopped)`;
otherwise it sets the flag, clears the credentials and the pending
request, cancels the direct-auth and secrets timers, terminates any
openconnect process, emits `StateChanged(Stopped)` and quits the GLib
main loop. -/
def Disconnect (s : PluginState) : PluginState × List Output :=
  if s.reconnection_pending then
    ({ s with disconnect_requested := true },
     [Output.stateChanged ServiceState.Stopped])
  else
    let s := { s with
      disconnect_requested := true
      cookie := none
      gateway := none
      last_failed_cookie := none
      pending_connection := none }
    let s := cancel_direct_auth_timer s
    let s := cancel_secrets_timeout s
    let s := { s with proc := none }
    (s, [Output.stateChanged ServiceState.Stopped, Output.quitLoop])

/-- The `SetIp4Config` D-Bus method (helper script reports IPv4 config):
cancel the pending restart source (if its id is stored), zero both
failure counters, clear `_last_failed_cookie`, cancel the direct-auth
timer, emit `Ip4Config` then `StateChanged(Started)`. -/
def SetIp4Config (s : PluginState) : PluginState × List Output :=
  let s := { removeOpt s.restart_timeout_id s with restart_timeout_id := none }
  let s := { s with
    auth_failure_count := 0
    reconnection_retry_count := 0
    last_failed_cookie := none }
  let s := cancel_direct_auth_timer s
  (s, [Output.ip4Config, Output.stateChanged ServiceState.Started])

/-- The `SetFailure` D-Bus method. -/
def SetFailure (s : PluginState) : PluginState × List Output :=
  (s, [Output.stateChanged ServiceState.Stopped])

/-- Inbound events of the supervisor: the D-Bus methods, the exit
notification of the openconnect child and the firing of a pending GLib
timeout source (the `AuthOutcome` is consumed only when the fired source
invokes `_launch_direct_auth`). -/
inductive Event where
  | connect (c : Conn)
  | connectInteractive (c : Conn)
  | newSecrets (c : Conn)
  | disconnect
  | setIp4Config
  | setFailure
  | procExit (pid : Nat) (code : Int)
  | fireTimer (i : Nat) (o : AuthOutcome)
deriving Repr, DecidableEq

/-- Fire the pending GLib source with the given id: the one-shot source
is removed (every modelled callback returns `False`) and its callback
runs.  Firing an id with no pending source is a no-op. -/
def fireTimer (i : Nat) (o : AuthOutcome) (s : PluginState) : PluginState × List Output :=
  match s.timers.find? (fun t => t.id == i) with
  | none => (s, [])
  | some t =>
    let s := sourceRemove i s
    match t.kind with
    | TimerKind.restart => do_restart s
    | TimerKind.directAuth => launch_direct_auth o s
    | TimerKind.secretsWait => on_secrets_timeout s

/-- One step of the supervisor: dispatch an event to its handler. -/
def step (s : PluginState) (e : Event) : PluginState × List Output :=
  match e with
  | Event.connect c => Connect c s
  | Event.connectInteractive c => ConnectInteractive c s
  | Event.newSecrets c => NewSecrets c s
  | Event.disconnect => Disconnect s
  | Event.setIp4Config => SetIp4Config s
  | Event.setFailure => SetFailure s
  | Event.procExit pid code => on_openconnect_exit pid code s
  | Event.fireTimer i o => fireTimer i o s

/-- Run a sequence of events from a state, keeping the final state. -/
def run (s : PluginState) : List Event → PluginState
  | [] => s
  | e :: es => run (step s e).fst es

/-- Whether an output list records a tunnel start. -/
def hasStartTunnel (out : List Output) : Bool :=
  out.any (fun o => match o with
    | Output.startTunnel _ _ => true
    | _ => false)

/-- A sample state with a tracked openconnect process (pid 0) and known
credentials, used to instantiate hypothesis-bearing theorems. -/
def runningState : PluginState :=
  { initState with proc := some 0, gateway := some "https://g", cookie := some "ck" }

/-- A sample state with one pending restart-backoff source tracked
under id 5. -/
def restartState : PluginState :=
  { initState with
    restart_timeout_id := some 5
    timers := [⟨5, TimerKind.restart, 2000⟩]
    nextId := 6 }

/-- A sample state remembering a rejected cookie "bad". -/
def rejectedState : PluginState :=
  { initState with last_failed_cookie := some "bad" }

/-- A sample state in the reconnection-pending sub-state. -/
def reconnState : PluginState :=
  { initState with reconnection_pending := true }

/-- The auth-dialog outcomes the spec calls "browser agent failure or
timeout": the dialog exited non-zero, produced no cookie, or timed out.
(`noSession` is the separate no-graphical-session environment error;
`success` is not a failure.) -/
def isAgentFailure : AuthOutcome → Bool
  | AuthOutcome.dialogFailed => true
  | AuthOutcome.noCookie => true
  | AuthOutcome.timedOut => true
  | _ => false

/-- The pending secrets-wait bookkeeping is empty: no pending GLib
source would invoke `_on_secrets_timeout`, and no source id is stored
in `_secrets_timeout_id`. -/
def secretsQuiet (s : PluginState) : Prop :=
  pendingCount TimerKind.secretsWait s = 0 ∧ s.secrets_timeout_id = none

/-- Every pending direct-auth source is the one tracked by
`_direct_auth_timeout_id` (the supervisor's own bookkeeping invariant
for that timer). -/
def directAuthTracked (s : PluginState) : Prop :=
  ∀ t ∈ s.timers, t.kind = TimerKind.directAuth → s.direct_auth_timeout_id = some t.id

/-- Every pending secrets-wait source is the one tracked by
`_secrets_timeout_id`. -/
def secretsTracked (s : PluginState) : Prop :=
  ∀ t ∈ s.timers, t.kind = TimerKind.secretsWait → s.secrets_timeout_id = some t.id

/-- Every pending restart source is the one tracked by
`_restart_timeout_id`. -/
def restartTracked (s : PluginState) : Prop :=
  ∀ t ∈ s.timers, t.kind = TimerKind.restart → s.restart_timeout_id = some t.id

/-- All pending source ids are below the fresh-id counter. -/
def idsFresh (s : PluginState) : Prop :=
  ∀ t ∈ s.timers, t.id < s.nextId

section ProjectionLemmas

variable (o : Option Nat) (s : PluginState)

@[simp] lemma removeOpt_proc : (removeOpt o s).proc = s.proc := by
  cases o <;> rfl

@[simp] lemma removeOpt_gateway : (removeOpt o s).gateway = s.gateway := by
  cases o <;> rfl

@[simp] lemma removeOpt_cookie : (removeOpt o s).cookie = s.cookie := by
  cases o <;> rfl

@[simp] lemma removeOpt_servercert : (removeOpt o s).servercert = s.servercert := by
  cases o <;> rfl

@[simp] lemma removeOpt_pending_connection :
    (removeOpt o s).pending_connection = s.pending_connection := by
  cases o <;> rfl

@[simp] lemma removeOpt_disconnect_requested :
    (removeOpt o s).disconnect_requested = s.disconnect_requested := by
  cases o <;> rfl

@[simp] lemma removeOpt_restart_timeout_id :
    (removeOpt o s).restart_timeout_id = s.restart_timeout_id := by
  cases o <;> rfl

@[simp] lemma removeOpt_auth_failure_count :
    (removeOpt o s).auth_failure_count = s.auth_failure_count := by
  cases o <;> rfl

@[simp] lemma removeOpt_reconnection_pending :
    (removeOpt o s).reconnection_pending = s.reconnection_pending := by
  cases o <;> rfl

@[simp] lemma removeOpt_reconnection_retry_count :
    (removeOpt o s).reconnection_retry_count = s.reconnection_retry_count := by
  cases o <;> rfl

@[simp] lemma removeOpt_last_failed_cookie :
    (removeOpt o s).last_failed_cookie = s.last_failed_cookie := by
  cases o <;> rfl

@[simp] lemma removeOpt_direct_auth_timeout_id :
    (removeOpt o s).direct_auth_timeout_id = s.direct_auth_timeout_id := by
  cases o <;> rfl

@[simp] lemma removeOpt_secrets_timeout_id :
    (removeOpt o s).secrets_timeout_id = s.secrets_timeout_id := by
  cases o <;> rfl

@[simp] lemma removeOpt_nextId : (removeOpt o s).nextId = s.nextId := by
  cases o <;> rfl

@[simp] lemma removeOpt_nextPid : (removeOpt o s).nextPid = s.nextPid := by
  cases o <;> rfl

end ProjectionLemmas

section OperationProjections

@[simp] lemma schedule_direct_auth_proc (d : Nat) (s : PluginState) :
    (schedule_direct_auth d s).proc = s.proc := by
  simp [schedule_direct_auth, timeoutAdd]

@[simp] lemma schedule_direct_auth_gateway (d : Nat) (s : PluginState) :
    (schedule_direct_auth d s).gateway = s.gateway := by
  simp [schedule_direct_auth, timeoutAdd]

@[simp] lemma schedule_direct_auth_cookie (d : Nat) (s : PluginState) :
    (schedule_direct_auth d s).cookie = s.cookie := by
  simp [schedule_direct_auth, timeoutAdd]

@[simp] lemma schedule_direct_auth_servercert (d : Nat) (s : PluginState) :
    (schedule_direct_auth d s).servercert = s.servercert := by
  simp [schedule_direct_auth, timeoutAdd]

@[simp] lemma schedule_direct_auth_pending_connection (d : Nat) (s : PluginState) :
    (schedule_direct_auth d s).pending_connection = s.pending_connection := by
  simp [schedule_direct_auth, timeoutAdd]

@[simp] lemma schedule_direct_auth_disconnect_requested (d : Nat) (s : PluginState) :
    (schedule_direct_auth d s).disconnect_requested = s.disconnect_requested := by
  simp [schedule_direct_auth, timeoutAdd]

@[simp] lemma schedule_direct_auth_restart_timeout_id (d : Nat) (s : PluginState) :
    (schedule_direct_auth d s).restart_timeout_id = s.restart_timeout_id := by
  simp [schedule_direct_auth, timeoutAdd]

@[simp] lemma schedule_direct_auth_auth_failure_count (d : Nat) (s : PluginState) :
    (schedule_direct_auth d s).auth_failure_count = s.auth_failure_count := by
  simp [schedule_direct_auth, timeoutAdd]

@[simp] lemma schedule_direct_auth_reconnection_pending (d : Nat) (s : PluginState) :
    (schedule_direct_auth d s).reconnection_pending = s.reconnection_pending := by
  simp [schedule_direct_auth, timeoutAdd]

@[simp] lemma schedule_direct_auth_reconnection_retry_count (d : Nat) (s : PluginState) :
    (schedule_direct_auth d s).reconnection_retry_count = s.reconnection_retry_count := by
  simp [schedule_direct_auth, timeoutAdd]

@[simp] lemma schedule_direct_auth_last_failed_cookie (d : Nat) (s : PluginState) :
    (schedule_direct_auth d s).last_failed_cookie = s.last_failed_cookie := by
  simp [schedule_direct_auth, timeoutAdd]

@[simp] lemma schedule_direct_auth_secrets_timeout_id (d : Nat) (s : PluginState) :
    (schedule_direct_auth d s).secrets_timeout_id = s.secrets_timeout_id := by
  simp [schedule_direct_auth, timeoutAdd]

@[simp] lemma schedule_direct_auth_nextPid (d : Nat) (s : PluginState) :
    (schedule_direct_auth d s).nextPid = s.nextPid := by
  simp [schedule_direct_auth, timeoutAdd]

@[simp] lemma cancel_direct_auth_timer_proc (s : PluginState) :
    (cancel_direct_auth_timer s).proc = s.proc := by
  simp [cancel_direct_auth_timer]

@[simp] lemma cancel_direct_auth_timer_gateway (s : PluginState) :
    (cancel_direct_auth_timer s).gateway = s.gateway := by
  simp [cancel_direct_auth_timer]

@[simp] lemma cancel_direct_auth_timer_cookie (s : PluginState) :
    (cancel_direct_auth_timer s).cookie = s.cookie := by
  simp [cancel_direct_auth_timer]

@[simp] lemma cancel_direct_auth_timer_servercert (s : PluginState) :
    (cancel_direct_auth_timer s).servercert = s.servercert := by
  simp [cancel_direct_auth_timer]

@[simp] lemma cancel_direct_auth_timer_pending_connection (s : PluginState) :
    (cancel_direct_auth_timer s).pending_connection = s.pending_connection := by
  simp [cancel_direct_auth_timer]

@[simp] lemma cancel_direct_auth_timer_disconnect_requested (s : PluginState) :
    (cancel_direct_auth_timer s).disconnect_requested = s.disconnect_requested := by
  simp [cancel_direct_auth_timer]

@[simp] lemma cancel_direct_auth_timer_restart_timeout_id (s : PluginState) :
    (cancel_direct_auth_timer s).restart_timeout_id = s.restart_timeout_id := by
  simp [cancel_direct_auth_timer]

@[simp] lemma cancel_direct_auth_timer_auth_failure_count (s : PluginState) :
    (cancel_direct_auth_timer s).auth_failure_count = s.auth_failure_count := by
  simp [cancel_direct_auth_timer]

@[simp] lemma cancel_direct_auth_timer_reconnection_pending (s : PluginState) :
    (cancel_direct_auth_timer s).reconnection_pending = s.reconnection_pending := by
  simp [cancel_direct_auth_timer]

@[simp] lemma cancel_direct_auth_timer_reconnection_retry_count (s : PluginState) :
    (cancel_direct_auth_timer s).reconnection_retry_count = s.reconnection_retry_count := by
  simp [cancel_direct_auth_timer]

@[simp] lemma cancel_direct_auth_timer_last_failed_cookie (s : PluginState) :
    (cancel_direct_auth_timer s).last_failed_cookie = s.last_failed_cookie := by
  simp [cancel_direct_auth_timer]

@[simp] lemma cancel_direct_auth_timer_secrets_timeout_id (s : PluginState) :
    (cancel_direct_auth_timer s).secrets_timeout_id = s.secrets_timeout_id := by
  simp [cancel_direct_auth_timer]

@[simp] lemma cancel_direct_auth_timer_direct_auth_timeout_id (s : PluginState) :
    (cancel_direct_auth_timer s).direct_auth_timeout_id = none := by
  simp [cancel_direct_auth_timer]

@[simp] lemma cancel_direct_auth_timer_nextPid (s : PluginState) :
    (cancel_direct_auth_timer s).nextPid = s.nextPid := by
  simp [cancel_direct_auth_timer]

@[simp] lemma cancel_secrets_timeout_proc (s : PluginState) :
    (cancel_secrets_timeout s).proc = s.proc := by
  simp [cancel_secrets_timeout]

@[simp] lemma cancel_secrets_timeout_gateway (s : PluginState) :
    (cancel_secrets_timeout s).gateway = s.gateway := by
  simp [cancel_secrets_timeout]

@[simp] lemma cancel_secrets_timeout_cookie (s : PluginState) :
    (cancel_secrets_timeout s).cookie = s.cookie := by
  simp [cancel_secrets_timeout]

@[simp] lemma cancel_secrets_timeout_servercert (s : PluginState) :
    (cancel_secrets_timeout s).servercert = s.servercert := by
  simp [cancel_secrets_timeout]

@[simp] lemma cancel_secrets_timeout_pending_connection (s : PluginState) :
    (cancel_secrets_timeout s).pending_connection = s.pending_connection := by
  simp [cancel_secrets_timeout]

@[simp] lemma cancel_secrets_timeout_disconnect_requested (s : PluginState) :
    (cancel_secrets_timeout s).disconnect_requested = s.disconnect_requested := by
  simp [cancel_secrets_timeout]

@[simp] lemma cancel_secrets_timeout_restart_timeout_id (s : PluginState) :
    (cancel_secrets_timeout s).restart_timeout_id = s.restart_timeout_id := by
  simp [cancel_secrets_timeout]

@[simp] lemma cancel_secrets_timeout_auth_failure_count (s : PluginState) :
    (cancel_secrets_timeout s).auth_failure_count = s.auth_failure_count := by
  simp [cancel_secrets_timeout]

@[simp] lemma cancel_secrets_timeout_reconnection_pending (s : PluginState) :
    (cancel_secrets_timeout s).reconnection_pending = s.reconnection_pending := by
  simp [cancel_secrets_timeout]

@[simp] lemma cancel_secrets_timeout_reconnection_retry_count (s : PluginState) :
    (cancel_secrets_timeout s).reconnection_retry_count = s.reconnection_retry_count := by
  simp [cancel_secrets_timeout]

@[simp] lemma cancel_secrets_timeout_last_failed_cookie (s : PluginState) :
    (cancel_secrets_timeout s).last_failed_cookie = s.last_failed_cookie := by
  simp [cancel_secrets_timeout]

@[simp] lemma cancel_secrets_timeout_direct_auth_timeout_id (s : PluginState) :
    (cancel_secrets_timeout s).direct_auth_timeout_id = s.direct_auth_timeout_id := by
  simp [cancel_secrets_timeout]

@[simp] lemma cancel_secrets_timeout_secrets_timeout_id (s : PluginState) :
    (cancel_secrets_timeout s).secrets_timeout_id = none := by
  simp [cancel_secrets_timeout]

@[simp] lemma cancel_secrets_timeout_nextPid (s : PluginState) :
    (cancel_secrets_timeout s).nextPid = s.nextPid := by
  simp [cancel_secrets_timeout]

@[simp] lemma cancel_secrets_timeout_nextId (s : PluginState) :
    (cancel_secrets_timeout s).nextId = s.nextId := by
  simp [cancel_secrets_timeout]

@[simp] lemma cancel_direct_auth_timer_nextId (s : PluginState) :
    (cancel_direct_auth_timer s).nextId = s.nextId := by
  simp [cancel_direct_auth_timer]

end OperationProjections

section CountLemmas

/-- Counting a conjunction of predicates equals counting the first when
the first implies the second on all members. -/
lemma countP_and_of_imp {α : Type} (p q : α → Bool) (l : List α)
    (h : ∀ a ∈ l, p a = true → q a = true) :
    List.countP (fun a => p a && q a) l = List.countP p l := by
  induction l with
  | nil => rfl
  | cons a l ih =>
    have ht : ∀ b ∈ l, p b = true → q b = true :=
      fun b hb => h b (List.mem_cons_of_mem a hb)
    rw [List.countP_cons, List.countP_cons, ih ht]
    cases hpa : p a with
    | false => simp [hpa]
    | true => simp [hpa, h a (List.mem_cons_self a l) hpa]

lemma pendingCount_sourceRemove_zero {k : TimerKind} (i : Nat) {s : PluginState}
    (h : pendingCount k s = 0) : pendingCount k (sourceRemove i s) = 0 := by
  unfold pendingCount sourceRemove at *
  rw [List.countP_eq_zero] at h
  rw [List.countP_eq_zero]
  intro a ha
  exact h a (List.mem_filter.mp ha).1

lemma pendingCount_removeOpt_zero {k : TimerKind} (o : Option Nat) {s : PluginState}
    (h : pendingCount k s = 0) : pendingCount k (removeOpt o s) = 0 := by
  cases o with
  | none => exact h
  | some i => exact pendingCount_sourceRemove_zero i h

/-- Removing a source whose id no timer of kind `k` carries keeps the
count of kind-`k` timers unchanged. -/
lemma pendingCount_sourceRemove_other {k : TimerKind} (i : Nat) {s : PluginState}
    (h : ∀ t ∈ s.timers, t.kind = k → t.id ≠ i) :
    pendingCount k (sourceRemove i s) = pendingCount k s := by
  unfold pendingCount sourceRemove
  rw [List.countP_filter]
  exact countP_and_of_imp _ _ _ (fun a ha hpa => by
    simp only [Bool.not_eq_true', beq_eq_false_iff_ne]
    exact h a ha (by simpa using hpa))

lemma pendingCount_timeoutAdd (d : Nat) (k k2 : TimerKind) (s : PluginState) :
    pendingCount k2 (timeoutAdd d k s).snd =
      pendingCount k2 s + (if k == k2 then 1 else 0) := by
  unfold pendingCount timeoutAdd
  simp [List.countP_append, List.countP_cons]

/-- The source registered by `_schedule_direct_auth` is pending with the
requested delay. -/
lemma schedule_direct_auth_mem (d : Nat) (s : PluginState) :
    ∃ t ∈ (schedule_direct_auth d s).timers,
      t.kind = TimerKind.directAuth ∧ t.delay = d := by
  have h : (schedule_direct_auth d s).timers =
      (removeOpt s.direct_auth_timeout_id s).timers ++
        [⟨(removeOpt s.direct_auth_timeout_id s).nextId, TimerKind.directAuth, d⟩] := rfl
  rw [h]
  exact ⟨_, List.mem_append_right _ (List.mem_singleton_self _), rfl, rfl⟩

/-- Scheduling the direct-auth timer always leaves at least one pending
direct-auth source. -/
lemma pendingCount_schedule_direct_auth_pos (d : Nat) (s : PluginState) :
    0 < pendingCount TimerKind.directAuth (schedule_direct_auth d s) := by
  obtain ⟨t, ht, hk, _⟩ := schedule_direct_auth_mem d s
  unfold pendingCount
  rw [List.countP_pos_iff]
  exact ⟨t, ht, by simp [hk]⟩

/-- How `_schedule_direct_auth` changes the pending counts: one fresh
direct-auth source on top of whatever survives the guarded removal. -/
lemma pendingCount_schedule_direct_auth (d : Nat) (k : TimerKind) (s : PluginState) :
    pendingCount k (schedule_direct_auth d s) =
      pendingCount k (removeOpt s.direct_auth_timeout_id s) +
        (if TimerKind.directAuth == k then 1 else 0) :=
  pendingCount_timeoutAdd d TimerKind.directAuth k (removeOpt s.direct_auth_timeout_id s)

/-- How `_schedule_secrets_timeout` changes the pending counts. -/
lemma pendingCount_schedule_secrets_timeout (k : TimerKind) (s : PluginState) :
    pendingCount k (schedule_secrets_timeout s) =
      pendingCount k (cancel_secrets_timeout s) +
        (if TimerKind.secretsWait == k then 1 else 0) :=
  pendingCount_timeoutAdd secrets_timeout_ms TimerKind.secretsWait k (cancel_secrets_timeout s)

/-- `_cancel_direct_auth_timer` and `_cancel_secrets_timeout` never
increase any pending count (they only filter the source table). -/
lemma pendingCount_cancel_direct_auth_timer_zero {k : TimerKind} {s : PluginState}
    (h : pendingCount k s = 0) : pendingCount k (cancel_direct_auth_timer s) = 0 := by
  have := pendingCount_removeOpt_zero (k := k) s.direct_auth_timeout_id h
  simpa [cancel_direct_auth_timer, pendingCount] using this

lemma pendingCount_cancel_secrets_timeout_zero {k : TimerKind} {s : PluginState}
    (h : pendingCount k s = 0) : pendingCount k (cancel_secrets_timeout s) = 0 := by
  have := pendingCount_removeOpt_zero (k := k) s.secrets_timeout_id h
  simpa [cancel_secrets_timeout, pendingCount] using this

/-- Removing a source id carried by every kind-`k` timer empties the
kind-`k` pending count. -/
lemma pendingCount_sourceRemove_all {k : TimerKind} {i : Nat} {s : PluginState}
    (h : ∀ t ∈ s.timers, t.kind = k → t.id = i) :
    pendingCount k (sourceRemove i s) = 0 := by
  unfold pendingCount sourceRemove
  rw [List.countP_eq_zero]
  intro a ha hpa
  obtain ⟨ha1, ha2⟩ := List.mem_filter.mp ha
  have hk : a.kind = k := by simpa using hpa
  have hid : a.id = i := h a ha1 hk
  simp [hid] at ha2

lemma pendingCount_removeOpt_all {k : TimerKind} {o : Option Nat} {s : PluginState}
    (h : ∀ t ∈ s.timers, t.kind = k → o = some t.id) :
    pendingCount k (removeOpt o s) = 0 := by
  cases o with
  | none =>
    show pendingCount k s = 0
    unfold pendingCount
    rw [List.countP_eq_zero]
    intro a ha hpa
    exact Option.noConfusion (h a ha (by simpa using hpa))
  | some i =>
    refine pendingCount_sourceRemove_all (fun t ht hk => ?_)
    exact (Option.some.inj (h t ht hk)).symm

lemma pendingCount_removeOpt_other {k : TimerKind} {o : Option Nat} {s : PluginState}
    (h : ∀ t ∈ s.timers, t.kind = k → o ≠ some t.id) :
    pendingCount k (removeOpt o s) = pendingCount k s := by
  cases o with
  | none => rfl
  | some i =>
    exact pendingCount_sourceRemove_other i (fun t ht hk hi =>
      h t ht hk (by rw [hi]))

/-- The pending counts of the cancel helpers coincide with those of the
underlying guarded removal (the stored-id write does not touch timers). -/
lemma pendingCount_cancel_direct_auth_timer (k : TimerKind) (s : PluginState) :
    pendingCount k (cancel_direct_auth_timer s) =
      pendingCount k (removeOpt s.direct_auth_timeout_id s) := rfl

lemma pendingCount_cancel_secrets_timeout (k : TimerKind) (s : PluginState) :
    pendingCount k (cancel_secrets_timeout s) =
      pendingCount k (removeOpt s.secrets_timeout_id s) := rfl

/-- With the direct-auth bookkeeping invariant, `_cancel_direct_auth_timer`
leaves no pending direct-auth source. -/
lemma pendingCount_cancel_direct_auth_timer_tracked {s : PluginState}
    (h : directAuthTracked s) :
    pendingCount TimerKind.directAuth (cancel_direct_auth_timer s) = 0 := by
  rw [pendingCount_cancel_direct_auth_timer]
  exact pendingCount_removeOpt_all (fun t ht hk => (h t ht hk))

/-- With the secrets bookkeeping invariant, `_cancel_secrets_timeout`
leaves no pending secrets-wait source. -/
lemma pendingCount_cancel_secrets_timeout_tracked {s : PluginState}
    (h : secretsTracked s) :
    pendingCount TimerKind.secretsWait (cancel_secrets_timeout s) = 0 := by
  rw [pendingCount_cancel_secrets_timeout]
  exact pendingCount_removeOpt_all (fun t ht hk => (h t ht hk))

/-- Clearing the pending request does not touch the timer table. -/
lemma pendingCount_clearPending (k : TimerKind) (s : PluginState) :
    pendingCount k (clearPending s) = pendingCount k s := rfl

end CountLemmas

/-- C1: on a credential-rejected tunnel exit (code 2) for the tracked
process, with disconnect not requested and the gateway known, the
consecutive auth-failure counter is incremented; the supervisor becomes
fatally `Stopped` with a failure message containing "repeatedly" exactly
when the incremented count exceeds 3, and for a count of 3 or fewer it
reports `Starting` and schedules direct browser re-authentication. -/
theorem C1_consecutive_auth_failures (s : PluginState) (pid : Nat)
    (hp : s.proc = some pid) (hd : s.disconnect_requested = false)
    (hg : optTruthy s.gateway = true) :
    (on_openconnect_exit pid 2 s).fst.auth_failure_count = s.auth_failure_count + 1 ∧
    (s.auth_failure_count + 1 > 3 →
      (on_openconnect_exit pid 2 s).snd =
        [Output.stateChanged ServiceState.Stopped,
         Output.failure ("Authentication failed " ++ "repeatedly" ++
           " - please reconnect manually")]) ∧
    (s.auth_failure_count + 1 ≤ 3 →
      (on_openconnect_exit pid 2 s).snd = [Output.stateChanged ServiceState.Starting] ∧
      (on_openconnect_exit pid 2 s).fst.reconnection_pending = true ∧
      ∃ t ∈ (on_openconnect_exit pid 2 s).fst.timers,
        t.kind = TimerKind.directAuth ∧ t.delay = 1000) := by
  simp only [on_openconnect_exit, hp, hd, beq_self_eq_true, Bool.not_true, Bool.false_eq_true,
    if_false, if_true, ite_false, ite_true, reduceIte]
  refine ⟨?_, ?_, ?_⟩
  · split
    · simp
    · rw [if_pos (by simp [hg, hd])]
      simp
  · intro h
    rw [if_pos (by simpa using h)]
  · intro h
    rw [if_neg (by simpa using Nat.not_lt.mpr h)]
    rw [if_pos (by simp [hg, hd])]
    refine ⟨rfl, ?_, ?_⟩
    · simp [schedule_direct_auth, timeoutAdd]
    · exact schedule_direct_auth_mem 1000 _

/-- Witness for `C1_consecutive_auth_failures`: the hypotheses hold at
`runningState` and the counter goes from 0 to 1 there. -/
theorem C1_consecutive_auth_failures_witness :
    runningState.proc = some 0 ∧ runningState.disconnect_requested = false ∧
    optTruthy runningState.gateway = true ∧
    (on_openconnect_exit 0 2 runningState).fst.auth_failure_count =
      runningState.auth_failure_count + 1 :=
  ⟨rfl, rfl, by decide,
   (C1_consecutive_auth_failures runningState 0 rfl rfl (by decide)).1⟩

/-- `_do_connect` with an empty gateway raises `LaunchFailedError`
before touching any state. -/
lemma do_connect_no_gateway {conn : Conn} (s : PluginState) (hg : conn.gateway = "") :
    do_connect conn s =
      (s, [Output.raiseLaunchFailed "No gateway specified in VPN configuration"]) := by
  simp only [do_connect]
  rw [if_pos (by simp [hg])]

/-- `_do_connect` refuses a cookie equal to `_last_failed_cookie` and
defers to `_ensure_direct_auth` instead. -/
lemma do_connect_stale {conn : Conn} {s : PluginState} (hg : conn.gateway ≠ "")
    (hc : conn.cookie ≠ "") (hl : s.last_failed_cookie = some conn.cookie) :
    do_connect conn s = ensure_direct_auth s := by
  simp only [do_connect]
  rw [if_neg (by simp [hg]), if_neg (by simp [hc]),
      if_pos (by simp [hl, optTruthy, hc])]

/-- `_ensure_direct_auth` never starts the tunnel itself. -/
lemma ensure_direct_auth_no_start (s : PluginState) :
    hasStartTunnel (ensure_direct_auth s).snd = false := rfl

/-- `_ensure_direct_auth` leaves a pending direct-auth source. -/
lemma ensure_direct_auth_pending (s : PluginState) :
    0 < pendingCount TimerKind.directAuth (ensure_direct_auth s).fst :=
  pendingCount_schedule_direct_auth_pos 0 _

/-- How `NewSecrets` completes a pending request once a cookie is
present: merge the secrets into the stored request, run `_do_connect`
on it and, unless that raised, clear the pending request. -/
lemma NewSecrets_pending_eq (s : PluginState) (conn pc : Conn)
    (h2 : conn.cookie ≠ "") (h1 : s.pending_connection = some pc) :
    NewSecrets conn s =
      (if raised (do_connect { pc with
            cookie := if conn.cookie == "" then pc.cookie else conn.cookie
            gwcert := if conn.gwcert == "" then pc.gwcert else conn.gwcert }
          { cancel_secrets_timeout s with pending_connection := some { pc with
              cookie := if conn.cookie == "" then pc.cookie else conn.cookie
              gwcert := if conn.gwcert == "" then pc.gwcert else conn.gwcert } }).snd then
        (do_connect { pc with
            cookie := if conn.cookie == "" then pc.cookie else conn.cookie
            gwcert := if conn.gwcert == "" then pc.gwcert else conn.gwcert }
          { cancel_secrets_timeout s with pending_connection := some { pc with
              cookie := if conn.cookie == "" then pc.cookie else conn.cookie
              gwcert := if conn.gwcert == "" then pc.gwcert else conn.gwcert } })
       else
        (clearPending (do_connect { pc with
            cookie := if conn.cookie == "" then pc.cookie else conn.cookie
            gwcert := if conn.gwcert == "" then pc.gwcert else conn.gwcert }
          { cancel_secrets_timeout s with pending_connection := some { pc with
              cookie := if conn.cookie == "" then pc.cookie else conn.cookie
              gwcert := if conn.gwcert == "" then pc.gwcert else conn.gwcert } }).fst,
         (do_connect { pc with
            cookie := if conn.cookie == "" then pc.cookie else conn.cookie
            gwcert := if conn.gwcert == "" then pc.gwcert else conn.gwcert }
          { cancel_secrets_timeout s with pending_connection := some { pc with
              cookie := if conn.cookie == "" then pc.cookie else conn.cookie
              gwcert := if conn.gwcert == "" then pc.gwcert else conn.gwcert } }).snd)) := by
  simp only [NewSecrets]
  rw [if_neg (by simp [h2])]
  simp only [cancel_secrets_timeout_pending_connection, h1]

/-- C3: a cookie equal to `_last_failed_cookie` is never passed to the
tunnel-start operation by any connect path (`Connect`,
`ConnectInteractive`, or `NewSecrets` completing a pending request), and
offering it on a request with a configured gateway schedules direct
browser re-authentication instead. -/
theorem C3_stale_cookie_refused (s : PluginState) (c : String) (pc : Conn)
    (hc : c ≠ "") (hl : s.last_failed_cookie = some c) :
    (∀ conn : Conn, conn.cookie = c →
      hasStartTunnel (Connect conn s).snd = false ∧
      hasStartTunnel (ConnectInteractive conn s).snd = false ∧
      hasStartTunnel (NewSecrets conn s).snd = false) ∧
    (∀ conn : Conn, conn.cookie = c → conn.gateway ≠ "" →
      0 < pendingCount TimerKind.directAuth (Connect conn s).fst ∧
      0 < pendingCount TimerKind.directAuth (ConnectInteractive conn s).fst) ∧
    (s.pending_connection = some pc → pc.gateway ≠ "" →
      ∀ conn : Conn, conn.cookie = c →
        0 < pendingCount TimerKind.directAuth (NewSecrets conn s).fst) := by
  have hConnect : ∀ conn : Conn, conn.cookie = c → Connect conn s = do_connect conn s := by
    intro conn hcc
    simp only [Connect]
    rw [if_neg (by simp [hcc, hc])]
  have hCI : ∀ conn : Conn, conn.cookie = c →
      ConnectInteractive conn s =
        (if conn.gateway == "" then
          ({ s with pending_connection := some conn },
           [Output.raiseLaunchFailed "No gateway specified in VPN configuration"])
         else
          (schedule_direct_auth 0
            { s with
              pending_connection := some conn
              gateway := some (normalizeGateway conn.gateway)
              reconnection_pending := true
              reconnection_retry_count := 0 },
           [Output.stateChanged ServiceState.Starting])) := by
    intro conn hcc
    have hA : (!(conn.cookie == "") && optTruthy s.last_failed_cookie &&
        (some conn.cookie == s.last_failed_cookie)) = true := by
      simp [hcc, hc, hl, optTruthy]
    simp only [ConnectInteractive, hA, if_true, ite_true, beq_self_eq_true]
  have hNS : ∀ conn : Conn, conn.cookie = c →
      hasStartTunnel (NewSecrets conn s).snd = false ∧
      (∀ pc2 : Conn, s.pending_connection = some pc2 → pc2.gateway ≠ "" →
        0 < pendingCount TimerKind.directAuth (NewSecrets conn s).fst) := by
    intro conn hcc
    cases hpc2 : s.pending_connection with
    | some pc2 =>
      have heq := NewSecrets_pending_eq s conn pc2 (hcc ▸ hc) hpc2
      by_cases hg : pc2.gateway = ""
      · rw [heq, do_connect_no_gateway _ (by simp [hg])]
        constructor
        · rfl
        · intro pc3 hpc3 hg3
          injection hpc3 with h33
          exact absurd (h33 ▸ hg) hg3
      · rw [heq, do_connect_stale (by simpa using hg) (by simp [hcc, hc])
          (by simp [hcc, hc, hl])]
        rw [if_neg (by simp [ensure_direct_auth, raised])]
        refine ⟨rfl, ?_⟩
        intro pc3 hpc3 hg3
        rw [pendingCount_clearPending]
        exact ensure_direct_auth_pending _
    | none =>
      refine ⟨?_, ?_⟩
      · cases hgw : s.gateway with
        | none =>
          simp only [NewSecrets]
          rw [if_neg (by simp [hcc, hc])]
          simp only [cancel_secrets_timeout_pending_connection, hpc2,
            cancel_secrets_timeout_gateway, hgw]
          rfl
        | some g =>
          by_cases hgg : g = ""
          · simp only [NewSecrets]
            rw [if_neg (by simp [hcc, hc])]
            simp only [cancel_secrets_timeout_pending_connection, hpc2,
              cancel_secrets_timeout_gateway, hgw, hgg]
            rfl
          · simp only [NewSecrets]
            rw [if_neg (by simp [hcc, hc])]
            simp only [cancel_secrets_timeout_pending_connection, hpc2,
              cancel_secrets_timeout_gateway, hgw]
            rw [if_pos (by simp [hgg]),
              do_connect_stale (by simpa using hgg) (by simp [hcc, hc]) (by simp [hl, hcc])]
            exact ensure_direct_auth_no_start _
      · intro pc3 hpc3
        exact Option.noConfusion hpc3
  refine ⟨?_, ?_, ?_⟩
  · intro conn hcc
    refine ⟨?_, ?_, (hNS conn hcc).1⟩
    · rw [hConnect conn hcc]
      by_cases hg : conn.gateway = ""
      · rw [do_connect_no_gateway s hg]
        rfl
      · rw [do_connect_stale hg (hcc ▸ hc) (hcc ▸ hl)]
        exact ensure_direct_auth_no_start s
    · rw [hCI conn hcc]
      by_cases hg : conn.gateway = ""
      · rw [if_pos (by simp [hg])]
        rfl
      · rw [if_neg (by simp [hg])]
        rfl
  · intro conn hcc hg
    constructor
    · rw [hConnect conn hcc, do_connect_stale hg (hcc ▸ hc) (hcc ▸ hl)]
      exact ensure_direct_auth_pending _
    · rw [hCI conn hcc, if_neg (by simp [hg])]
      exact pendingCount_schedule_direct_auth_pos 0 _
  · intro hpc2 hpg conn hcc
    exact (hNS conn hcc).2 pc hpc2 hpg


/-- Witness for `C3_stale_cookie_refused`: with rejected cookie "bad"
remembered, a `Connect` re-offering "bad" does not start the tunnel. -/
theorem C3_stale_cookie_refused_witness :
    (("bad" : String) ≠ "" ∧ rejectedState.last_failed_cookie = some "bad") ∧
    hasStartTunnel (Connect ⟨"g", "bad", ""⟩ rejectedState).snd = false :=
  ⟨⟨by decide, rfl⟩,
   ((C3_stale_cookie_refused rejectedState "bad" ⟨"pg", "", ""⟩ (by decide) rfl).1
     ⟨"g", "bad", ""⟩ rfl).1⟩

/-- C6 counterexample: the claim's "cancels any pending restart-backoff
timer" is false in a reachable state.  The run of `C5_counterexample`
(Connect with a cookie, transient exit, Connect again, transient exit)
leaves two pending restart-backoff sources (ids 0 and 1) with only id 1
stored in `_restart_timeout_id`; a `SetIp4Config` event there removes
only the stored source, leaving one restart-backoff source pending. -/
theorem C6_counterexample :
    pendingCount TimerKind.restart
      (SetIp4Config
        (on_openconnect_exit 1 1
          (Connect ⟨"https://g", "ck", ""⟩
            (on_openconnect_exit 0 1
              (Connect ⟨"https://g", "ck", ""⟩ initState).fst).fst).fst).fst).fst = 1 := by
  decide

/-- C6 as amended: every `SetIp4Config` event zeroes
`_auth_failure_count` and `_reconnection_retry_count` and emits
`Ip4Config` followed by `StateChanged(Started)`, unconditionally; it
cancels the restart-backoff source whose id is stored in
`_restart_timeout_id`, which empties the pending restart-backoff
sources exactly when every pending one carries the stored id — a
bookkeeping condition the non-cancelling restartBackoff scheduling can
break (see the counterexample), in which case the untracked source
stays pending. -/
theorem C6_set_ip4_resets (s : PluginState) :
    (SetIp4Config s).fst.auth_failure_count = 0 ∧
    (SetIp4Config s).fst.reconnection_retry_count = 0 ∧
    (SetIp4Config s).snd = [Output.ip4Config, Output.stateChanged ServiceState.Started] ∧
    (restartTracked s →
      pendingCount TimerKind.restart (SetIp4Config s).fst = 0) := by
  refine ⟨by simp [SetIp4Config], by simp [SetIp4Config], rfl, ?_⟩
  intro hr
  have h0 : pendingCount TimerKind.restart (removeOpt s.restart_timeout_id s) = 0 :=
    pendingCount_removeOpt_all (fun t ht hk => hr t ht hk)
  show pendingCount TimerKind.restart
    (cancel_direct_auth_timer
      { removeOpt s.restart_timeout_id s with
          restart_timeout_id := none, auth_failure_count := 0,
          reconnection_retry_count := 0, last_failed_cookie := none }) = 0
  exact pendingCount_cancel_direct_auth_timer_zero h0

/-- Witness for `C6_set_ip4_resets`: a state with one pending restart
source, tracked under id 5, where the cancel does empty the table. -/
theorem C6_set_ip4_resets_witness :
    restartTracked restartState ∧
    pendingCount TimerKind.restart (SetIp4Config restartState).fst = 0 :=
  ⟨by unfold restartTracked; decide,
   (C6_set_ip4_resets restartState).2.2.2 (by unfold restartTracked; decide)⟩

/-- C10: every `SetIp4Config` event clears `_last_failed_cookie`, so a
previously rejected cookie re-offered by a later connect request is no
longer refused: any well-formed connect then reaches the tunnel start. -/
theorem C10_ip4_clears_rejected_cookie (s : PluginState) :
    (SetIp4Config s).fst.last_failed_cookie = none ∧
    (∀ conn : Conn, conn.gateway ≠ "" → conn.cookie ≠ "" →
      hasStartTunnel (do_connect conn (SetIp4Config s).fst).snd = true) := by
  have hlast : (SetIp4Config s).fst.last_failed_cookie = none := by simp [SetIp4Config]
  refine ⟨hlast, ?_⟩
  intro conn hg hc
  simp only [do_connect]
  rw [if_neg (by simp [hg]), if_neg (by simp [hc]),
      if_neg (by simp [hlast, optTruthy])]
  simp [start_openconnect, hasStartTunnel]

/-- Witness for `C10_ip4_clears_rejected_cookie`: after `SetIp4Config`
on a state that had rejected cookie "bad", re-offering "bad" starts the
tunnel. -/
theorem C10_ip4_clears_rejected_cookie_witness :
    (("g" : String) ≠ "" ∧ ("bad" : String) ≠ "") ∧
    hasStartTunnel (do_connect ⟨"g", "bad", ""⟩
      (SetIp4Config rejectedState).fst).snd = true :=
  ⟨⟨by decide, by decide⟩,
   (C10_ip4_clears_rejected_cookie rejectedState).2
     ⟨"g", "bad", ""⟩ (by decide) (by decide)⟩

/-- C7: a tunnel exit with any code other than 2, with disconnect not
requested, behaves as follows: when cookie and gateway are still known
the supervisor emits only `StateChanged(Starting)`, keeps the
(gateway, cookie) pair unchanged, schedules a restart source with the
fixed 2000 ms backoff, and the restart callback then restarts the tunnel
with the unchanged pair (emitting no further state change); when cookie
or gateway is missing it emits `StateChanged(Stopped)` and schedules
nothing. -/
theorem C7_transient_exit_restart (s : PluginState) (pid : Nat) (code : Int)
    (hp : s.proc = some pid) (hcode : code ≠ 2) (hd : s.disconnect_requested = false) :
    (optTruthy s.cookie = true → optTruthy s.gateway = true →
      (on_openconnect_exit pid code s).snd = [Output.stateChanged ServiceState.Starting] ∧
      (on_openconnect_exit pid code s).fst.cookie = s.cookie ∧
      (on_openconnect_exit pid code s).fst.gateway = s.gateway ∧
      (∃ t ∈ (on_openconnect_exit pid code s).fst.timers,
        t.kind = TimerKind.restart ∧ t.delay = 2000) ∧
      (do_restart (on_openconnect_exit pid code s).fst).snd =
        [Output.startTunnel (s.gateway.getD "") (s.cookie.getD "")]) ∧
    ((optTruthy s.cookie && optTruthy s.gateway) = false →
      (on_openconnect_exit pid code s).snd = [Output.stateChanged ServiceState.Stopped] ∧
      (on_openconnect_exit pid code s).fst.timers = s.timers) := by
  have h2 : ((code == 2) = true) = False := by simp [hcode]
  simp only [on_openconnect_exit, hp, hd, beq_self_eq_true, Bool.not_true, Bool.false_eq_true,
    if_false, h2, ite_false, ite_true, reduceIte]
  constructor
  · intro hc hg
    rw [if_pos (by simp [hc, hg])]
    refine ⟨rfl, rfl, rfl, ?_, ?_⟩
    · exact ⟨⟨s.nextId, TimerKind.restart, 2000⟩,
        List.mem_append_right _ (List.mem_singleton_self _), rfl, rfl⟩
    · unfold do_restart
      rw [if_neg (by simp [timeoutAdd, hd]), if_neg (by simp [timeoutAdd, hc, hg])]
      rfl
  · intro h
    rw [if_neg (by simp [h])]
    exact ⟨rfl, rfl⟩

/-- Witness for `C7_transient_exit_restart`: from `runningState`, a
transient exit (code 1) schedules the 2-second restart and the restart
reuses the same gateway and cookie. -/
theorem C7_transient_exit_restart_witness :
    (runningState.proc = some 0 ∧ (1 : Int) ≠ 2 ∧
      runningState.disconnect_requested = false ∧
      optTruthy runningState.cookie = true ∧ optTruthy runningState.gateway = true) ∧
    (do_restart (on_openconnect_exit 0 1 runningState).fst).snd =
      [Output.startTunnel "https://g" "ck"] :=
  ⟨⟨rfl, by decide, rfl, by decide, by decide⟩,
   ((C7_transient_exit_restart runningState 0 1 rfl (by decide) rfl).1
     (by decide) (by decide)).2.2.2.2⟩

/-- C8: on an auth-dialog failure or timeout while reconnection is
pending, `_launch_direct_auth` increments the retry counter; while the
incremented counter is below the bound of 10 it schedules a direct-auth
retry after the fixed 3000 ms interval (emitting nothing), and once the
counter exceeds the bound it emits `StateChanged(Stopped)` and a fatal
`Failure` and leaves the reconnection-pending sub-state. -/
theorem C8_agent_failure_retry_bound (s : PluginState) (o : AuthOutcome)
    (hp : s.reconnection_pending = true) (ho : isAgentFailure o = true) :
    (launch_direct_auth o s).fst.reconnection_retry_count =
      s.reconnection_retry_count + 1 ∧
    (s.reconnection_retry_count + 1 < 10 →
      (launch_direct_auth o s).snd = [] ∧
      ∃ t ∈ (launch_direct_auth o s).fst.timers,
        t.kind = TimerKind.directAuth ∧ t.delay = 3000) ∧
    (s.reconnection_retry_count + 1 > 10 →
      (launch_direct_auth o s).snd =
        [Output.stateChanged ServiceState.Stopped,
         Output.failure "VPN reconnection failed - please reconnect manually"] ∧
      (launch_direct_auth o s).fst.reconnection_pending = false) := by
  cases o with
  | success c g => simp [isAgentFailure] at ho
  | noSession => simp [isAgentFailure] at ho
  | dialogFailed =>
    simp only [launch_direct_auth, hp, Bool.not_true, Bool.false_eq_true, if_false,
      ite_false, reduceIte]
    refine ⟨?_, ?_, ?_⟩
    · split <;> simp
    · intro h
      rw [if_neg (by simpa [max_reconnection_retries] using Nat.not_lt.mpr (Nat.le_of_lt h))]
      exact ⟨rfl, schedule_direct_auth_mem reconnection_retry_interval _⟩
    · intro h
      rw [if_pos (by simpa [max_reconnection_retries] using h)]
      exact ⟨rfl, rfl⟩
  | noCookie =>
    simp only [launch_direct_auth, hp, Bool.not_true, Bool.false_eq_true, if_false,
      ite_false, reduceIte]
    refine ⟨?_, ?_, ?_⟩
    · split
      · simp
      · unfold schedule_auth_retry
        split <;> simp
    · intro h
      rw [if_neg (by simpa [max_reconnection_retries] using Nat.not_lt.mpr (Nat.le_of_lt h))]
      simp only [schedule_auth_retry]
      rw [if_neg (by simpa [max_reconnection_retries] using Nat.not_le.mpr h)]
      exact ⟨rfl, schedule_direct_auth_mem reconnection_retry_interval _⟩
    · intro h
      rw [if_pos (by simpa [max_reconnection_retries] using h)]
      exact ⟨rfl, rfl⟩
  | timedOut =>
    simp only [launch_direct_auth, hp, Bool.not_true, Bool.false_eq_true, if_false,
      ite_false, reduceIte]
    refine ⟨?_, ?_, ?_⟩
    · split
      · simp
      · unfold schedule_auth_retry
        split <;> simp
    · intro h
      rw [if_neg (by simpa [max_reconnection_retries] using Nat.not_lt.mpr (Nat.le_of_lt h))]
      simp only [schedule_auth_retry]
      rw [if_neg (by simpa [max_reconnection_retries] using Nat.not_le.mpr h)]
      exact ⟨rfl, schedule_direct_auth_mem reconnection_retry_interval _⟩
    · intro h
      rw [if_pos (by simpa [max_reconnection_retries] using h)]
      exact ⟨rfl, rfl⟩

/-- Witness for `C8_agent_failure_retry_bound`: a failed dialog in
`reconnState` bumps the counter from 0 to 1. -/
theorem C8_agent_failure_retry_bound_witness :
    (reconnState.reconnection_pending = true ∧
      isAgentFailure AuthOutcome.dialogFailed = true) ∧
    (launch_direct_auth AuthOutcome.dialogFailed reconnState).fst.reconnection_retry_count =
      reconnState.reconnection_retry_count + 1 :=
  ⟨⟨rfl, rfl⟩,
   (C8_agent_failure_retry_bound reconnState AuthOutcome.dialogFailed rfl rfl).1⟩

/-- Timer-table membership survives the guarded removal backwards: a
source pending after `removeOpt` was pending before. -/
lemma mem_removeOpt_sub {t : TimerEntry} {o : Option Nat} {s : PluginState}
    (h : t ∈ (removeOpt o s).timers) : t ∈ s.timers := by
  cases o with
  | none => exact h
  | some i => exact (List.mem_filter.mp h).1

lemma mem_cancel_direct_auth_timer_sub {t : TimerEntry} {s : PluginState}
    (h : t ∈ (cancel_direct_auth_timer s).timers) : t ∈ s.timers :=
  mem_removeOpt_sub (o := s.direct_auth_timeout_id) h

/-- Cancelling a differently-tracked timer preserves a kind's count. -/
lemma pendingCount_cancel_direct_auth_timer_other {k : TimerKind} {s : PluginState}
    (h : ∀ t ∈ s.timers, t.kind = k → s.direct_auth_timeout_id ≠ some t.id) :
    pendingCount k (cancel_direct_auth_timer s) = pendingCount k s := by
  rw [pendingCount_cancel_direct_auth_timer]
  exact pendingCount_removeOpt_other h

lemma pendingCount_cancel_secrets_timeout_other {k : TimerKind} {s : PluginState}
    (h : ∀ t ∈ s.timers, t.kind = k → s.secrets_timeout_id ≠ some t.id) :
    pendingCount k (cancel_secrets_timeout s) = pendingCount k s := by
  rw [pendingCount_cancel_secrets_timeout]
  exact pendingCount_removeOpt_other h

@[simp] lemma schedule_direct_auth_nextId (d : Nat) (s : PluginState) :
    (schedule_direct_auth d s).nextId = s.nextId + 1 := by
  simp [schedule_direct_auth, timeoutAdd]

@[simp] lemma schedule_secrets_timeout_nextId (s : PluginState) :
    (schedule_secrets_timeout s).nextId = s.nextId + 1 := by
  simp [schedule_secrets_timeout, timeoutAdd]

/-- Under the supervisor's bookkeeping invariants, one
`_schedule_direct_auth` leaves exactly one pending direct-auth source
and re-establishes the invariants. -/
lemma schedule_direct_auth_exact_one {s : PluginState} (d : Nat)
    (hda : directAuthTracked s) (hf : idsFresh s) :
    pendingCount TimerKind.directAuth (schedule_direct_auth d s) = 1 ∧
    directAuthTracked (schedule_direct_auth d s) ∧
    idsFresh (schedule_direct_auth d s) := by
  have h0 : pendingCount TimerKind.directAuth
      (removeOpt s.direct_auth_timeout_id s) = 0 :=
    pendingCount_removeOpt_all (fun t ht hk => hda t ht hk)
  have hmem : (schedule_direct_auth d s).timers =
      (removeOpt s.direct_auth_timeout_id s).timers ++
        [⟨(removeOpt s.direct_auth_timeout_id s).nextId, TimerKind.directAuth, d⟩] := rfl
  refine ⟨?_, ?_, ?_⟩
  · rw [pendingCount_schedule_direct_auth, h0]
    rfl
  · intro t ht hk
    rw [hmem] at ht
    rcases List.mem_append.mp ht with h1 | h1
    · exact absurd (by simp [hk]) (List.countP_eq_zero.mp h0 t h1)
    · rw [List.mem_singleton.mp h1]
      rfl
  · intro t ht
    rw [hmem] at ht
    rcases List.mem_append.mp ht with h1 | h1
    · have := hf t (mem_removeOpt_sub h1)
      simp only [schedule_direct_auth_nextId]
      omega
    · rw [List.mem_singleton.mp h1]
      simp

/-- Same statement for `_schedule_secrets_timeout`. -/
lemma schedule_secrets_timeout_exact_one {s : PluginState}
    (hsw : secretsTracked s) (hf : idsFresh s) :
    pendingCount TimerKind.secretsWait (schedule_secrets_timeout s) = 1 ∧
    secretsTracked (schedule_secrets_timeout s) ∧
    idsFresh (schedule_secrets_timeout s) := by
  have h0 : pendingCount TimerKind.secretsWait (cancel_secrets_timeout s) = 0 :=
    pendingCount_cancel_secrets_timeout_tracked hsw
  have hmem : (schedule_secrets_timeout s).timers =
      (cancel_secrets_timeout s).timers ++
        [⟨(cancel_secrets_timeout s).nextId, TimerKind.secretsWait, secrets_timeout_ms⟩] := rfl
  refine ⟨?_, ?_, ?_⟩
  · rw [pendingCount_schedule_secrets_timeout, h0]
    rfl
  · intro t ht hk
    rw [hmem] at ht
    rcases List.mem_append.mp ht with h1 | h1
    · exact absurd (by simp [hk]) (List.countP_eq_zero.mp h0 t h1)
    · rw [List.mem_singleton.mp h1]
      rfl
  · intro t ht
    rw [hmem] at ht
    rcases List.mem_append.mp ht with h1 | h1
    · have h2 : t ∈ s.timers := mem_removeOpt_sub h1
      have := hf t h2
      simp only [schedule_secrets_timeout_nextId]
      omega
    · rw [List.mem_singleton.mp h1]
      simp

/-- C5 counterexample: the claim is false for the restart-backoff timer.
Run: `Connect` with a cookie (tunnel pid 0 starts), transient exit of
pid 0 (restart source id 0 scheduled), a second `Connect` (tunnel pid 1
starts, restart source 0 still pending), transient exit of pid 1.  The
second restart scheduling does not cancel source 0, leaving TWO pending
restart-backoff sources, contradicting "scheduling it twice in
succession leaves exactly one pending timer under that name" and "at
most one instance of each named timer is ever pending". -/
theorem C5_counterexample :
    pendingCount TimerKind.restart
      (on_openconnect_exit 1 1
        (Connect ⟨"https://g", "ck", ""⟩
          (on_openconnect_exit 0 1
            (Connect ⟨"https://g", "ck", ""⟩ initState).fst).fst).fst).fst = 2 := by
  decide

/-- C5 as amended: the direct-auth and secrets-wait schedule operations
are idempotent replacements — scheduling twice in succession from a
state satisfying the supervisor's bookkeeping invariants leaves exactly
one pending source of that kind — but the restart-backoff scheduling in
`_on_openconnect_exit` does not cancel an existing pending restart
source (see the counterexample). -/
theorem C5_schedule_idempotent_replace (s : PluginState) (d1 d2 : Nat)
    (hda : directAuthTracked s) (hsw : secretsTracked s) (hf : idsFresh s) :
    pendingCount TimerKind.directAuth
      (schedule_direct_auth d2 (schedule_direct_auth d1 s)) = 1 ∧
    pendingCount TimerKind.secretsWait
      (schedule_secrets_timeout (schedule_secrets_timeout s)) = 1 := by
  obtain ⟨-, hda1, hf1⟩ := schedule_direct_auth_exact_one d1 hda hf
  obtain ⟨h1, -, -⟩ := schedule_direct_auth_exact_one d2 hda1 hf1
  obtain ⟨-, hsw1, hf2⟩ := schedule_secrets_timeout_exact_one hsw hf
  obtain ⟨h2, -, -⟩ := schedule_secrets_timeout_exact_one hsw1 hf2
  exact ⟨h1, h2⟩

/-- Witness for `C5_schedule_idempotent_replace`, at the freshly
initialised state. -/
theorem C5_schedule_idempotent_replace_witness :
    (directAuthTracked initState ∧ secretsTracked initState ∧ idsFresh initState) ∧
    pendingCount TimerKind.directAuth
      (schedule_direct_auth 0 (schedule_direct_auth 3000 initState)) = 1 :=
  ⟨⟨by unfold directAuthTracked; decide, by unfold secretsTracked; decide,
    by unfold idsFresh; decide⟩,
   (C5_schedule_idempotent_replace initState 3000 0
     (by unfold directAuthTracked; decide) (by unfold secretsTracked; decide)
     (by unfold idsFresh; decide)).1⟩

/-- C2 counterexample: `Connect` without a cookie schedules the
direct-auth retry source (id 0) and sets `_reconnection_pending`; a
`Disconnect` then sets the disconnect-requested flag and emits
`Stopped` — but the retry source stays pending, and when it fires with
a successful browser authentication it does NOT abort: it starts the
tunnel, although no new connect request arrived after the Disconnect.
This refutes "every retry timer that fires afterwards observes that
flag and aborts without restarting the tunnel". -/
theorem C2_counterexample :
    (Disconnect (Connect ⟨"https://g", "", ""⟩ initState).fst).fst.disconnect_requested
        = true ∧
    (Disconnect (Connect ⟨"https://g", "", ""⟩ initState).fst).snd =
      [Output.stateChanged ServiceState.Stopped] ∧
    pendingCount TimerKind.directAuth
      (Disconnect (Connect ⟨"https://g", "", ""⟩ initState).fst).fst = 1 ∧
    (fireTimer 0 (AuthOutcome.success "abc123" "")
        (Disconnect (Connect ⟨"https://g", "", ""⟩ initState).fst).fst).snd =
      [Output.stateChanged ServiceState.Starting,
       Output.startTunnel "https://g" "abc123"] := by
  decide

/-- C2 as amended: a Disconnect while reconnection is pending
immediately emits `Stopped` and sets the disconnect-requested flag, but
cancels nothing and leaves `_reconnection_pending` set; a restart-backoff
callback firing afterwards observes the flag and aborts without a
tunnel start, while the direct-auth retry callback checks only
`_reconnection_pending` and, within the retry bound, proceeds — on
successful re-authentication it restarts the tunnel. -/
theorem C2_disconnect_while_reconnecting (s u v : PluginState) (c g : String)
    (h : s.reconnection_pending = true) (hu : u.disconnect_requested = true)
    (hv : v.reconnection_pending = true)
    (hvc : v.reconnection_retry_count + 1 ≤ 10) :
    (Disconnect s).snd = [Output.stateChanged ServiceState.Stopped] ∧
    (Disconnect s).fst.disconnect_requested = true ∧
    (Disconnect s).fst.reconnection_pending = true ∧
    (Disconnect s).fst.timers = s.timers ∧
    hasStartTunnel (do_restart u).snd = false ∧
    hasStartTunnel (launch_direct_auth (AuthOutcome.success c g) v).snd = true := by
  refine ⟨?_, ?_, ?_, ?_, ?_, ?_⟩
  · unfold Disconnect
    rw [if_pos (by simp [h])]
  · unfold Disconnect
    rw [if_pos (by simp [h])]
  · unfold Disconnect
    rw [if_pos (by simp [h])]
    exact h
  · unfold Disconnect
    rw [if_pos (by simp [h])]
  · unfold do_restart
    rw [if_pos (by simp [hu])]
    rfl
  · unfold launch_direct_auth
    rw [if_neg (by simp [hv])]
    rw [if_neg (by simpa [max_reconnection_retries] using Nat.not_lt.mpr hvc)]
    rfl

/-- Witness for `C2_disconnect_while_reconnecting` at concrete states. -/
theorem C2_disconnect_while_reconnecting_witness :
    (reconnState.reconnection_pending = true ∧
      ({ initState with disconnect_requested := true } : PluginState).disconnect_requested
        = true ∧
      reconnState.reconnection_retry_count + 1 ≤ 10) ∧
    hasStartTunnel
      (launch_direct_auth (AuthOutcome.success "c" "g") reconnState).snd = true :=
  ⟨⟨rfl, rfl, by decide⟩,
   (C2_disconnect_while_reconnecting reconnState
     { initState with disconnect_requested := true } reconnState "c" "g"
     rfl rfl rfl (by decide)).2.2.2.2.2⟩

/-- C4 counterexample: from the reachable state produced by a `Connect`
without a cookie (direct-auth retry source pending,
`_reconnection_pending` set), `Disconnect` returns with the external
state `Stopped` but with ONE timer still pending — refuting "zero
pending timers ... after the Disconnect call returns". -/
theorem C4_counterexample :
    (Disconnect (Connect ⟨"https://g", "", ""⟩ initState).fst).snd =
      [Output.stateChanged ServiceState.Stopped] ∧
    pendingCount TimerKind.directAuth
      (Disconnect (Connect ⟨"https://g", "", ""⟩ initState).fst).fst = 1 := by
  decide

/-- The timer effect of the not-reconnecting branch of `Disconnect`
(cancel the direct-auth source, then the secrets source), for any state
satisfying the bookkeeping invariants. -/
lemma disconnect_otherwise_counts (s0 : PluginState)
    (hda : directAuthTracked s0) (hsw : secretsTracked s0)
    (hre : ∀ t ∈ s0.timers, t.kind = TimerKind.restart →
      s0.direct_auth_timeout_id ≠ some t.id ∧ s0.secrets_timeout_id ≠ some t.id) :
    pendingCount TimerKind.directAuth
      (cancel_secrets_timeout (cancel_direct_auth_timer s0)) = 0 ∧
    pendingCount TimerKind.secretsWait
      (cancel_secrets_timeout (cancel_direct_auth_timer s0)) = 0 ∧
    pendingCount TimerKind.restart
      (cancel_secrets_timeout (cancel_direct_auth_timer s0)) =
      pendingCount TimerKind.restart s0 := by
  have h1 : pendingCount TimerKind.directAuth (cancel_direct_auth_timer s0) = 0 :=
    pendingCount_cancel_direct_auth_timer_tracked hda
  have hsw2 : secretsTracked (cancel_direct_auth_timer s0) := by
    intro t ht hk
    rw [cancel_direct_auth_timer_secrets_timeout_id]
    exact hsw t (mem_cancel_direct_auth_timer_sub ht) hk
  have h2 : pendingCount TimerKind.secretsWait
      (cancel_secrets_timeout (cancel_direct_auth_timer s0)) = 0 :=
    pendingCount_cancel_secrets_timeout_tracked hsw2
  have hr1 : pendingCount TimerKind.restart (cancel_direct_auth_timer s0) =
      pendingCount TimerKind.restart s0 :=
    pendingCount_cancel_direct_auth_timer_other (fun t ht hk => (hre t ht hk).1)
  have hr2 : pendingCount TimerKind.restart
      (cancel_secrets_timeout (cancel_direct_auth_timer s0)) =
      pendingCount TimerKind.restart (cancel_direct_auth_timer s0) :=
    pendingCount_cancel_secrets_timeout_other
      (fun t ht hk => by
        rw [cancel_direct_auth_timer_secrets_timeout_id]
        exact (hre t (mem_cancel_direct_auth_timer_sub ht) hk).2)
  exact ⟨pendingCount_cancel_secrets_timeout_zero h1, h2, hr2.trans hr1⟩

/-- C4 as amended: `Disconnect` always emits `Stopped`; while
reconnection is pending it cancels no timer at all (the table is
untouched), and otherwise it cancels the direct-auth and secrets-wait
timers but leaves any pending restart-backoff source scheduled (its
callback later aborts via the disconnect flag).  Stated under the
supervisor's bookkeeping invariants. -/
theorem C4_disconnect_stopped_timers (s : PluginState)
    (hda : directAuthTracked s) (hsw : secretsTracked s)
    (hre : ∀ t ∈ s.timers, t.kind = TimerKind.restart →
      s.direct_auth_timeout_id ≠ some t.id ∧ s.secrets_timeout_id ≠ some t.id) :
    Output.stateChanged ServiceState.Stopped ∈ (Disconnect s).snd ∧
    (s.reconnection_pending = true → (Disconnect s).fst.timers = s.timers) ∧
    (s.reconnection_pending = false →
      pendingCount TimerKind.directAuth (Disconnect s).fst = 0 ∧
      pendingCount TimerKind.secretsWait (Disconnect s).fst = 0 ∧
      pendingCount TimerKind.restart (Disconnect s).fst = pendingCount TimerKind.restart s) := by
  refine ⟨?_, ?_, ?_⟩
  · unfold Disconnect
    split <;> simp
  · intro hrp
    simp only [Disconnect]
    rw [if_pos (by simp [hrp])]
  · intro hrp
    simp only [Disconnect]
    rw [if_neg (by simp [hrp])]
    obtain ⟨a, b, c⟩ := disconnect_otherwise_counts
      { s with
        disconnect_requested := true
        cookie := none
        gateway := none
        last_failed_cookie := none
        pending_connection := none }
      hda hsw hre
    exact ⟨a, b, c⟩

/-- Witness for `C4_disconnect_stopped_timers` at `restartState`: the
restart source survives Disconnect while its count is preserved. -/
theorem C4_disconnect_stopped_timers_witness :
    (directAuthTracked restartState ∧ secretsTracked restartState ∧
      (∀ t ∈ restartState.timers, t.kind = TimerKind.restart →
        restartState.direct_auth_timeout_id ≠ some t.id ∧
        restartState.secrets_timeout_id ≠ some t.id) ∧
      restartState.reconnection_pending = false) ∧
    pendingCount TimerKind.restart (Disconnect restartState).fst =
      pendingCount TimerKind.restart restartState :=
  ⟨⟨by unfold directAuthTracked; decide, by unfold secretsTracked; decide,
    by decide, rfl⟩,
   ((C4_disconnect_stopped_timers restartState
     (by unfold directAuthTracked; decide) (by unfold secretsTracked; decide)
     (by decide)).2.2 rfl).2.2⟩

section SecretsQuietInvariant

lemma secretsQuiet_sourceRemove (i : Nat) {s : PluginState} (h : secretsQuiet s) :
    secretsQuiet (sourceRemove i s) :=
  ⟨pendingCount_sourceRemove_zero i h.1, h.2⟩

lemma secretsQuiet_removeOpt (o : Option Nat) {s : PluginState} (h : secretsQuiet s) :
    secretsQuiet (removeOpt o s) :=
  ⟨pendingCount_removeOpt_zero o h.1, by rw [removeOpt_secrets_timeout_id]; exact h.2⟩

lemma secretsQuiet_timeoutAdd (d : Nat) (k : TimerKind) (hk : k ≠ TimerKind.secretsWait)
    {s : PluginState} (h : secretsQuiet s) : secretsQuiet (timeoutAdd d k s).snd := by
  constructor
  · rw [pendingCount_timeoutAdd, h.1]
    simp [hk]
  · exact h.2

lemma secretsQuiet_schedule_direct_auth (d : Nat) {s : PluginState} (h : secretsQuiet s) :
    secretsQuiet (schedule_direct_auth d s) := by
  constructor
  · exact (secretsQuiet_timeoutAdd d TimerKind.directAuth (by decide)
      (secretsQuiet_removeOpt s.direct_auth_timeout_id h)).1
  · rw [schedule_direct_auth_secrets_timeout_id]
    exact h.2

lemma secretsQuiet_cancel_direct_auth_timer {s : PluginState} (h : secretsQuiet s) :
    secretsQuiet (cancel_direct_auth_timer s) :=
  ⟨pendingCount_cancel_direct_auth_timer_zero h.1,
   by rw [cancel_direct_auth_timer_secrets_timeout_id]; exact h.2⟩

lemma secretsQuiet_cancel_secrets_timeout {s : PluginState} (h : secretsQuiet s) :
    secretsQuiet (cancel_secrets_timeout s) :=
  ⟨pendingCount_cancel_secrets_timeout_zero h.1, cancel_secrets_timeout_secrets_timeout_id s⟩

lemma secretsQuiet_ensure_direct_auth {s : PluginState} (h : secretsQuiet s) :
    secretsQuiet (ensure_direct_auth s).fst :=
  secretsQuiet_schedule_direct_auth 0 h

lemma secretsQuiet_start_openconnect {s : PluginState} (h : secretsQuiet s) :
    secretsQuiet (start_openconnect s).fst := h

lemma secretsQuiet_do_connect (conn : Conn) {s : PluginState} (h : secretsQuiet s) :
    secretsQuiet (do_connect conn s).fst := by
  simp only [do_connect]
  split
  · exact h
  · split
    · exact h
    · split
      · exact secretsQuiet_ensure_direct_auth h
      · exact h

lemma secretsQuiet_do_restart {s : PluginState} (h : secretsQuiet s) :
    secretsQuiet (do_restart s).fst := by
  simp only [do_restart]
  split
  · exact h
  · split
    · exact h
    · exact h

lemma secretsQuiet_schedule_auth_retry (reason : String) {s : PluginState}
    (h : secretsQuiet s) : secretsQuiet (schedule_auth_retry reason s).fst := by
  simp only [schedule_auth_retry]
  split
  · exact h
  · exact secretsQuiet_schedule_direct_auth reconnection_retry_interval h

lemma secretsQuiet_launch_direct_auth (o : AuthOutcome) {s : PluginState}
    (h : secretsQuiet s) : secretsQuiet (launch_direct_auth o s).fst := by
  simp only [launch_direct_auth]
  split
  · exact h
  · split
    · exact h
    · cases o with
      | success c g =>
        exact secretsQuiet_cancel_direct_auth_timer h
      | noSession => exact secretsQuiet_schedule_direct_auth reconnection_retry_interval h
      | dialogFailed => exact secretsQuiet_schedule_direct_auth reconnection_retry_interval h
      | noCookie => exact secretsQuiet_schedule_auth_retry _ h
      | timedOut => exact secretsQuiet_schedule_auth_retry _ h

lemma secretsQuiet_on_secrets_timeout {s : PluginState} (h : secretsQuiet s) :
    secretsQuiet (on_secrets_timeout s).fst := by
  simp only [on_secrets_timeout]
  split
  · exact ⟨h.1, rfl⟩
  · split
    · exact ⟨h.1, rfl⟩
    · split
      · exact ⟨h.1, rfl⟩
      · exact secretsQuiet_schedule_direct_auth 0 ⟨h.1, rfl⟩

lemma secretsQuiet_on_openconnect_exit (pid : Nat) (code : Int) {s : PluginState}
    (h : secretsQuiet s) : secretsQuiet (on_openconnect_exit pid code s).fst := by
  simp only [on_openconnect_exit]
  split
  · exact h
  · split
    · exact h
    · split
      · split
        · exact h
        · split
          · exact secretsQuiet_schedule_direct_auth 1000 h
          · exact h
      · split
        · exact secretsQuiet_timeoutAdd 2000 TimerKind.restart (by decide) h
        · exact h

lemma secretsQuiet_Connect (conn : Conn) {s : PluginState} (h : secretsQuiet s) :
    secretsQuiet (Connect conn s).fst := by
  simp only [Connect]
  split
  · split
    · exact h
    · exact secretsQuiet_schedule_direct_auth 0 h
  · exact secretsQuiet_do_connect conn h

lemma secretsQuiet_clearPending {s : PluginState} (h : secretsQuiet s) :
    secretsQuiet (clearPending s) := h

lemma secretsQuiet_ConnectInteractive (conn : Conn) {s : PluginState}
    (h : secretsQuiet s) : secretsQuiet (ConnectInteractive conn s).fst := by
  simp only [ConnectInteractive]
  repeat' split
  all_goals first
    | exact h
    | exact secretsQuiet_schedule_direct_auth 0 h
    | exact secretsQuiet_do_connect conn h

lemma secretsQuiet_NewSecrets (conn : Conn) {s : PluginState} (h : secretsQuiet s) :
    secretsQuiet (NewSecrets conn s).fst := by
  simp only [NewSecrets]
  have h0 : secretsQuiet (cancel_secrets_timeout s) := secretsQuiet_cancel_secrets_timeout h
  repeat' split
  all_goals first
    | exact h0
    | exact secretsQuiet_schedule_direct_auth 0 h0
    | exact secretsQuiet_do_connect _ h0

lemma secretsQuiet_Disconnect {s : PluginState} (h : secretsQuiet s) :
    secretsQuiet (Disconnect s).fst := by
  simp only [Disconnect]
  split
  · exact h
  · exact secretsQuiet_cancel_secrets_timeout (secretsQuiet_cancel_direct_auth_timer h)

lemma secretsQuiet_SetIp4Config {s : PluginState} (h : secretsQuiet s) :
    secretsQuiet (SetIp4Config s).fst := by
  simp only [SetIp4Config]
  exact secretsQuiet_cancel_direct_auth_timer
    (secretsQuiet_removeOpt s.restart_timeout_id h)

lemma secretsQuiet_fireTimer (i : Nat) (o : AuthOutcome) {s : PluginState}
    (h : secretsQuiet s) : secretsQuiet (fireTimer i o s).fst := by
  simp only [fireTimer]
  split
  · exact h
  · split
    · exact secretsQuiet_do_restart (secretsQuiet_sourceRemove i h)
    · exact secretsQuiet_launch_direct_auth _ (secretsQuiet_sourceRemove i h)
    · exact secretsQuiet_on_secrets_timeout (secretsQuiet_sourceRemove i h)

/-- One supervisor step preserves the empty secrets-wait bookkeeping. -/
lemma secretsQuiet_step (e : Event) {s : PluginState} (h : secretsQuiet s) :
    secretsQuiet (step s e).fst := by
  cases e with
  | connect c => exact secretsQuiet_Connect c h
  | connectInteractive c => exact secretsQuiet_ConnectInteractive c h
  | newSecrets c => exact secretsQuiet_NewSecrets c h
  | disconnect => exact secretsQuiet_Disconnect h
  | setIp4Config => exact secretsQuiet_SetIp4Config h
  | setFailure => exact h
  | procExit pid code => exact secretsQuiet_on_openconnect_exit pid code h
  | fireTimer i o => exact secretsQuiet_fireTimer i o h

/-- C9: in every reachable state of the service (any event sequence from
the `__init__` state), no pending GLib source would invoke
`_on_secrets_timeout` and no source id is stored in
`_secrets_timeout_id`: no handler ever calls
`_schedule_secrets_timeout`, so the 5-second secrets-wait fallback never
fires in any run. -/
theorem C9_secrets_timer_never_pending (es : List Event) :
    pendingCount TimerKind.secretsWait (run initState es) = 0 ∧
    (run initState es).secrets_timeout_id = none := by
  suffices h : ∀ s : PluginState, secretsQuiet s → secretsQuiet (run s es) from
    h initState ⟨rfl, rfl⟩
  induction es with
  | nil => exact fun s h => h
  | cons e es ih => exact fun s h => ih (step s e).fst (secretsQuiet_step e h)

end SecretsQuietInvariant

end PulseSSO
